import Mathlib

/-!
Shallow embedding of `src/wasm/socket.rs` from the `async-wsocket` repository:
the `WebSocket` handle with its `connect`, `close_code`, `close_reason` and
`ready_state` operations, together with the cancellation guard's `Drop` cleanup.

Machine integers (`u16` close codes, the raw ready-state code) are modelled as
`Nat`; the values involved never approach the overflow boundary in any of the
code paths embedded here, and no arithmetic is performed on them.  Fallible
operations return `Except WsError _`; a path that panics in Rust
(`expect_throw`, `unreachable!`) is modelled as `none` in an `Option`-wrapped
result.  Side effects on the underlying browser socket (registering and
clearing the three callback slots, issuing a close request, setting the binary
type) are recorded explicitly: `connect` returns the list of actions it
performed on the transport, and the close operations report how many times the
transport's close entry point was invoked and whether a `Closing` event was
broadcast on the hub.
-/

/-- Structured close metadata (`CloseEvent` in `crate::wasm`): code, reason and
cleanliness flag of a completed close. -/
structure CloseEvent where
  code : Nat
  reason : String
  was_clean : Bool
deriving DecidableEq, Repr

/-- Socket lifecycle events (`WsEvent` in `crate::wasm`). -/
inductive WsEvent where
  | Open : WsEvent
  | Error : WsEvent
  | Closing : WsEvent
  | Closed : CloseEvent → WsEvent
deriving DecidableEq, Repr

/-- Discrete connection state (`WsState` in `crate::wasm`). -/
inductive WsState where
  | Connecting : WsState
  | Open : WsState
  | Closing : WsState
  | Closed : WsState
deriving DecidableEq, Repr

/-- The error taxonomy of `WsError` restricted to the variants produced by
`socket.rs` (the source spells the too-long variant `ReasonStringToLong`). -/
inductive WsError where
  | InvalidUrl : String → WsError
  | ConnectionFailed : CloseEvent → WsError
  | Dom : Nat → WsError
  | Other : String → WsError
  | ConnectionNotOpen : WsError
  | InvalidCloseCode : Nat → WsError
  | ReasonStringToLong : WsError
deriving DecidableEq, Repr

/-- Embeds `WsEvent::is_open`. -/
def WsEvent.is_open : WsEvent → Bool
  | .Open => true
  | _ => false

/-- Embeds `WsEvent::is_closed`. -/
def WsEvent.is_closed : WsEvent → Bool
  | .Closed _ => true
  | _ => false

/-- The `OPEN_CLOSE` filter of `WebSocket`:
`|evt| evt.is_open() | evt.is_closed()`. -/
def OPEN_CLOSE (evt : WsEvent) : Bool :=
  evt.is_open || evt.is_closed

/-- Modelled from the spec: the `TryFrom<u16> for WsState` conversion lives in
`crate::wasm`, outside `src/`.  Per the spec's data model, `WsState` is
"derived by translating the transport's raw numeric ready-state" and "an
out-of-range raw value is a fatal programming/platform error".  The raw codes
are the WebSocket API's ready-state constants (CONNECTING = 0, OPEN = 1,
CLOSING = 2, CLOSED = 3); any other code has no translation (`none`). -/
def wsStateOfRaw : Nat → Option WsState
  | 0 => some WsState.Connecting
  | 1 => some WsState.Open
  | 2 => some WsState.Closing
  | 3 => some WsState.Closed
  | _ => none

/-- Embeds `WebSocket::ready_state`: forward the transport's raw ready-state
code through the `TryFrom` translation; `expect_throw` makes an untranslatable
code a fatal error, modelled as `none`. -/
def ready_state (raw : Nat) : Option WsState :=
  wsStateOfRaw raw

/-- The native close notification (`web_sys::CloseEvent`), carrying the fields
the platform reports. -/
structure JsCloseEvt where
  code : Nat
  reason : String
  was_clean : Bool
deriving DecidableEq, Repr

/-- Embeds the `on_close` closure registered by `connect`: it wraps the native
close notification's fields, unchanged, into a `WsEvent::Closed`. -/
def on_close (evt : JsCloseEvt) : WsEvent :=
  WsEvent.Closed { code := evt.code, reason := evt.reason, was_clean := evt.was_clean }

/-- A creation failure reported by `WebSysSocket::new`, viewed through
`DomException`: a numeric error code and an optional message string. -/
structure JsError where
  code : Nat
  message : Option String
deriving DecidableEq, Repr

/-- The legacy DOM exception code `DomException::SYNTAX_ERR`. -/
def SYNTAX_ERR : Nat := 12

/-- Embeds the error-translation match in `connect` (lines 39-55 of
`socket.rs`): `SYNTAX_ERR` becomes `InvalidUrl` with the supplied URL string,
code `0` becomes `Other` with the message (defaulting to `"None"`), and any
other code becomes `Dom(code)`. -/
def translateCreateError (url : String) (e : JsError) : WsError :=
  if e.code = SYNTAX_ERR then WsError.InvalidUrl url
  else if e.code = 0 then WsError.Other (e.message.getD "None")
  else WsError.Dom e.code

/-- Observable actions `connect` performs on the underlying transport.
`setOnopen b` abstracts `ws.set_onopen(Some(..))` when `b = true` and
`ws.set_onopen(None)` when `b = false`, likewise for the close and error
slots; `closeTransport` is `ws.close()`. -/
inductive WsAction where
  | createSocket : WsAction
  | setOnopen : Bool → WsAction
  | setOnclose : Bool → WsAction
  | setOnerror : Bool → WsAction
  | observeHub : WsAction
  | awaitFirst : WsAction
  | forgetGuard : WsAction
  | setBinaryType : WsAction
  | closeTransport : WsAction
deriving DecidableEq, Repr

/-- Embeds the body of `Guard::drop` (lines 102-118 of `socket.rs`) as the
list of transport actions it performs, given the raw ready-state code the
transport reports at cleanup time: clear the three callback slots, then issue
a close request exactly when the fallible conversion of the raw code yields
`Ok(WsState::Open)`; any other outcome of the conversion, including an
untranslatable code, is silently skipped by the `if let`. -/
def guardDropActions (raw : Nat) : List WsAction :=
  [WsAction.setOnopen false, WsAction.setOnclose false, WsAction.setOnerror false]
    ++ (if wsStateOfRaw raw = some WsState.Open then [WsAction.closeTransport] else [])

/-- Embeds `WebSocket::connect` (lines 36-157 of `socket.rs`).  The inputs
abstract the environment: `create` is the outcome of `WebSysSocket::new`
(`none` on success), `first` is the first event delivered to the `OPEN_CLOSE`
subscription (`none` when the event stream ends without yielding), and
`rawAtDrop` is the raw ready-state the transport reports if the guard's
cleanup runs.  The result pairs the resolved value of the future (`Unit`
standing for the `(WebSocket, WsStream)` pair) with the list of transport
actions performed. -/
def connect (url : String) (create : Option JsError) (first : Option WsEvent)
    (rawAtDrop : Nat) : Except WsError Unit × List WsAction :=
  match create with
  | some e => (Except.error (translateCreateError url e), [WsAction.createSocket])
  | none =>
    let registered : List WsAction :=
      [WsAction.createSocket, WsAction.setOnopen true, WsAction.setOnclose true,
        WsAction.setOnerror true, WsAction.observeHub, WsAction.awaitFirst]
    match first with
    | some (WsEvent.Closed evt) =>
        (Except.error (WsError.ConnectionFailed evt),
          registered ++ guardDropActions rawAtDrop)
    | _ =>
        (Except.ok (),
          registered ++ [WsAction.forgetGuard, WsAction.setBinaryType])

/-- The tail of both close operations (`evts.next().await` on an
`is_closed`-filtered subscription followed by the `if let WsEvent::Closed`
match): extract the `CloseEvent`; any other event is `unreachable!`, modelled
as `none`. -/
def awaitClosed (e : WsEvent) : Option (Except WsError CloseEvent) :=
  match e with
  | WsEvent.Closed ce => some (Except.ok ce)
  | _ => none

/-- Embeds `WebSocket::close_code` (lines 161-194 of `socket.rs`).  `st` is
the translated current ready state, `accepts` the outcome of
`ws.close_with_code(code)`, and `awaited` the event eventually delivered to
the `is_closed` subscription.  The result triple is (resolved value with
`none` for a panic, number of transport close invocations, whether a
`Closing` event was broadcast on the hub). -/
def close_code (st : WsState) (code : Nat) (accepts : Bool) (awaited : WsEvent) :
    Option (Except WsError CloseEvent) × Nat × Bool :=
  match st with
  | WsState.Closed => (some (Except.error WsError.ConnectionNotOpen), 0, false)
  | WsState.Closing => (awaitClosed awaited, 0, false)
  | _ =>
    if accepts then (awaitClosed awaited, 1, true)
    else (some (Except.error (WsError.InvalidCloseCode code)), 1, false)

/-- Embeds `WebSocket::close_reason` (lines 198-237 of `socket.rs`): as
`close_code`, except that in the branch that would issue the close request the
reason's byte length is checked against 123 before the transport is
contacted.  `reason.as_ref().len()` in Rust is the UTF-8 byte length, hence
`String.utf8ByteSize`. -/
def close_reason (st : WsState) (code : Nat) (reason : String) (accepts : Bool)
    (awaited : WsEvent) : Option (Except WsError CloseEvent) × Nat × Bool :=
  match st with
  | WsState.Closed => (some (Except.error WsError.ConnectionNotOpen), 0, false)
  | WsState.Closing => (awaitClosed awaited, 0, false)
  | _ =>
    if reason.utf8ByteSize > 123 then
      (some (Except.error WsError.ReasonStringToLong), 0, false)
    else if accepts then (awaitClosed awaited, 1, true)
    else (some (Except.error (WsError.InvalidCloseCode code)), 1, false)

/-! ### Helper lemmas -/

/-- A concrete 124-byte reason string used as a counterexample input. -/
def longReason : String := String.mk (List.replicate 124 'a')

set_option maxRecDepth 4096 in
theorem longReason_utf8ByteSize : longReason.utf8ByteSize = 124 := by rfl

/-! ### Claim theorems -/

/-- C1: for every URL the transport accepts (socket creation succeeds),
`connect` resolves either to `Ok` or to a `ConnectionFailed` error whose
embedded close info has `code`, `reason` and `was_clean` exactly equal to the
fields of the transport's close notification; and whenever the first delivered
event is a close notification (the remote closed before the handshake
completed), `connect` resolves to that exact `ConnectionFailed` and never to
`Ok`. -/
theorem connect_resolves_ok_or_exact_connection_failed (url : String)
    (first : Option WsEvent) (rawAtDrop : Nat) :
    ((connect url none first rawAtDrop).1 = Except.ok ()
      ∨ ∃ n : JsCloseEvt, first = some (on_close n)
          ∧ (connect url none first rawAtDrop).1
            = Except.error (WsError.ConnectionFailed
                { code := n.code, reason := n.reason, was_clean := n.was_clean }))
    ∧ (∀ n : JsCloseEvt, first = some (on_close n) →
        (connect url none first rawAtDrop).1
            = Except.error (WsError.ConnectionFailed
                { code := n.code, reason := n.reason, was_clean := n.was_clean })
          ∧ (connect url none first rawAtDrop).1 ≠ Except.ok ()) := by
  constructor
  · match first with
    | none => exact Or.inl rfl
    | some WsEvent.Open => exact Or.inl rfl
    | some WsEvent.Error => exact Or.inl rfl
    | some WsEvent.Closing => exact Or.inl rfl
    | some (WsEvent.Closed ce) =>
        exact Or.inr ⟨⟨ce.code, ce.reason, ce.was_clean⟩, rfl, rfl⟩
  · intro n h
    subst h
    exact ⟨rfl, by simp [connect, on_close]⟩

/-- C1 witness: a concrete close notification before the handshake yields the
matching `ConnectionFailed` and not `Ok`. -/
theorem connect_resolves_ok_or_exact_connection_failed_witness :
    (connect "ws://x" none (some (on_close ⟨1002, "r", false⟩)) 1).1
        = Except.error (WsError.ConnectionFailed ⟨1002, "r", false⟩)
      ∧ (connect "ws://x" none (some (on_close ⟨1002, "r", false⟩)) 1).1 ≠ Except.ok () :=
  (connect_resolves_ok_or_exact_connection_failed "ws://x"
      (some (on_close ⟨1002, "r", false⟩)) 1).2 ⟨1002, "r", false⟩ rfl

/-- C4: when socket creation fails, `connect` translates the failure —
`SYNTAX_ERR` to `InvalidUrl` with the supplied URL string, a nonzero code to
`Dom(code)`, code `0` to `Other(message)` — and returns with `createSocket` as
the only transport action performed, so no callback is registered. -/
theorem connect_create_failure_translation (url : String) (e : JsError)
    (first : Option WsEvent) (rawAtDrop : Nat) :
    (e.code = SYNTAX_ERR →
        (connect url (some e) first rawAtDrop).1 = Except.error (WsError.InvalidUrl url))
    ∧ (e.code ≠ SYNTAX_ERR → e.code ≠ 0 →
        (connect url (some e) first rawAtDrop).1 = Except.error (WsError.Dom e.code))
    ∧ (e.code = 0 →
        (connect url (some e) first rawAtDrop).1
          = Except.error (WsError.Other (e.message.getD "None")))
    ∧ (connect url (some e) first rawAtDrop).2 = [WsAction.createSocket] := by
  refine ⟨?_, ?_, ?_, rfl⟩
  · intro h
    simp [connect, translateCreateError, h]
  · intro h1 h2
    simp [connect, translateCreateError, h1, h2]
  · intro h
    simp [connect, translateCreateError, SYNTAX_ERR, h]

/-- C4 witness: creation failure with the `SYNTAX_ERR` code on the supplied
string yields `InvalidUrl` and a trace with no callback registration. -/
theorem connect_create_failure_translation_witness :
    (connect "not a url" (some ⟨12, none⟩) none 0).1
        = Except.error (WsError.InvalidUrl "not a url")
      ∧ (connect "not a url" (some ⟨12, none⟩) none 0).2 = [WsAction.createSocket] :=
  ⟨(connect_create_failure_translation "not a url" ⟨12, none⟩ none 0).1 rfl,
    (connect_create_failure_translation "not a url" ⟨12, none⟩ none 0).2.2.2⟩

/-- C5: whenever the guard's cleanup runs it sets all three native callback
slots to `None`, and it issues a close request on the transport if and only if
the transport's ready state is observed (through the fallible conversion) to
be `Open`. -/
theorem guard_drop_unregisters_and_closes_iff_open (raw : Nat) :
    WsAction.setOnopen false ∈ guardDropActions raw
    ∧ WsAction.setOnclose false ∈ guardDropActions raw
    ∧ WsAction.setOnerror false ∈ guardDropActions raw
    ∧ (WsAction.closeTransport ∈ guardDropActions raw
        ↔ wsStateOfRaw raw = some WsState.Open) := by
  refine ⟨by simp [guardDropActions], by simp [guardDropActions],
    by simp [guardDropActions], ?_⟩
  by_cases h : wsStateOfRaw raw = some WsState.Open <;> simp [guardDropActions, h]

/-- C6: close requested while the state is `Closed` returns
`ConnectionNotOpen`, with zero transport close invocations, for both
`close_code` and `close_reason`. -/
theorem close_on_closed_returns_connection_not_open (code : Nat) (reason : String)
    (accepts : Bool) (awaited : WsEvent) :
    close_code WsState.Closed code accepts awaited
        = (some (Except.error WsError.ConnectionNotOpen), 0, false)
    ∧ close_reason WsState.Closed code reason accepts awaited
        = (some (Except.error WsError.ConnectionNotOpen), 0, false) :=
  ⟨rfl, rfl⟩

/-- C7: when the transport rejects the supplied close code (in a state where
the close request is issued and, for `close_reason`, the reason fits in 123
bytes), both close operations return `InvalidCloseCode` carrying that code and
no `Closing` event is broadcast on the hub. -/
theorem close_rejected_code_no_broadcast (st : WsState) (code : Nat)
    (reason : String) (awaited : WsEvent) (h1 : st ≠ WsState.Closed)
    (h2 : st ≠ WsState.Closing) (h3 : ¬ reason.utf8ByteSize > 123) :
    close_code st code false awaited
        = (some (Except.error (WsError.InvalidCloseCode code)), 1, false)
    ∧ close_reason st code reason false awaited
        = (some (Except.error (WsError.InvalidCloseCode code)), 1, false) := by
  cases st with
  | Closed => exact absurd rfl h1
  | Closing => exact absurd rfl h2
  | Connecting => exact ⟨rfl, by simp [close_reason, h3]⟩
  | Open => exact ⟨rfl, by simp [close_reason, h3]⟩

/-- C7 witness: rejection of code 42 in the `Open` state. -/
theorem close_rejected_code_no_broadcast_witness :
    close_code WsState.Open 42 false WsEvent.Open
        = (some (Except.error (WsError.InvalidCloseCode 42)), 1, false)
    ∧ close_reason WsState.Open 42 "" false WsEvent.Open
        = (some (Except.error (WsError.InvalidCloseCode 42)), 1, false) :=
  close_rejected_code_no_broadcast WsState.Open 42 "" WsEvent.Open
    (by decide) (by decide) (by decide)

/-- C8: close requested while the state is `Closing` issues no transport close
call and broadcasts nothing, proceeding directly to awaiting the `Closed`
event, for both `close_code` and `close_reason`. -/
theorem close_while_closing_is_idempotent (code : Nat) (reason : String)
    (accepts : Bool) (awaited : WsEvent) :
    close_code WsState.Closing code accepts awaited = (awaitClosed awaited, 0, false)
    ∧ close_reason WsState.Closing code reason accepts awaited
        = (awaitClosed awaited, 0, false) :=
  ⟨rfl, rfl⟩

/-- C3 counterexample: a call to `close_reason` whose reason is 124 bytes long
does not return `ReasonStringToLong` — in the `Closing` state the length check
is skipped entirely and the call resolves from the awaited `Closed` event. -/
theorem close_reason_long_reason_not_rejected_when_closing :
    longReason.utf8ByteSize > 123
    ∧ close_reason WsState.Closing 1000 longReason true (WsEvent.Closed ⟨1000, "", true⟩)
        = (some (Except.ok ⟨1000, "", true⟩), 0, false) :=
  ⟨by rw [longReason_utf8ByteSize]; decide, rfl⟩

/-- C3 amended: in any state other than `Closed` and `Closing` (the states in
which a close request would be issued), `close_reason` with a reason whose
encoded length exceeds 123 bytes returns `ReasonStringToLong` with zero
transport close invocations and no broadcast: the length check happens before
the transport is contacted. -/
theorem close_reason_too_long_checked_before_transport (st : WsState) (code : Nat)
    (reason : String) (accepts : Bool) (awaited : WsEvent)
    (h1 : st ≠ WsState.Closed) (h2 : st ≠ WsState.Closing)
    (h3 : reason.utf8ByteSize > 123) :
    close_reason st code reason accepts awaited
        = (some (Except.error WsError.ReasonStringToLong), 0, false) := by
  cases st with
  | Closed => exact absurd rfl h1
  | Closing => exact absurd rfl h2
  | Connecting => simp [close_reason, h3]
  | Open => simp [close_reason, h3]

/-- C3 witness: the 124-byte reason in the `Open` state is rejected locally. -/
theorem close_reason_too_long_checked_before_transport_witness :
    close_reason WsState.Open 1000 longReason true WsEvent.Open
        = (some (Except.error WsError.ReasonStringToLong), 0, false) :=
  close_reason_too_long_checked_before_transport WsState.Open 1000 longReason true
    WsEvent.Open (by decide) (by decide) (by rw [longReason_utf8ByteSize]; decide)

/-- C9: `ready_state` maps each recognized raw code to the corresponding
`WsState` and has no translation (a fatal error, not a typed error result) for
any unrecognized code. -/
theorem ready_state_translates_or_fatal (raw : Nat) :
    ready_state 0 = some WsState.Connecting
    ∧ ready_state 1 = some WsState.Open
    ∧ ready_state 2 = some WsState.Closing
    ∧ ready_state 3 = some WsState.Closed
    ∧ (3 < raw → ready_state raw = none) := by
  refine ⟨rfl, rfl, rfl, rfl, ?_⟩
  intro h
  rcases raw with _ | _ | _ | _ | n
  · omega
  · omega
  · omega
  · omega
  · rfl

/-- C9 witness: the unrecognized raw code 5 has no translation while code 1
translates to `Open`. -/
theorem ready_state_translates_or_fatal_witness :
    ready_state 5 = none ∧ ready_state 1 = some WsState.Open :=
  ⟨(ready_state_translates_or_fatal 5).2.2.2.2 (by decide),
    (ready_state_translates_or_fatal 5).2.1⟩

/-- C10: for any raw ready-state code that does not translate to `Open` —
including every unrecognized code, on which `ready_state` is fatal — the
guard's cleanup silently skips the close request and still completes,
clearing exactly the three callback slots. -/
theorem guard_drop_skips_close_without_fatal (raw : Nat)
    (h : wsStateOfRaw raw ≠ some WsState.Open) :
    guardDropActions raw
        = [WsAction.setOnopen false, WsAction.setOnclose false, WsAction.setOnerror false]
    ∧ (3 < raw → ready_state raw = none) := by
  refine ⟨by simp [guardDropActions, h], ?_⟩
  intro hr
  rcases raw with _ | _ | _ | _ | n
  · omega
  · omega
  · omega
  · omega
  · rfl

/-- C10 witness: the unrecognized raw code 7 — fatal for `ready_state` — lets
the guard clear the callbacks and skip the close request. -/
theorem guard_drop_skips_close_without_fatal_witness :
    guardDropActions 7
        = [WsAction.setOnopen false, WsAction.setOnclose false, WsAction.setOnerror false]
    ∧ (3 < 7 → ready_state 7 = none) :=
  guard_drop_skips_close_without_fatal 7 (by decide)
